import Mathlib

/-!
Shallow embedding of the weather-map widget in `src/src/pages/Index.tsx`
(repository `forecast-view-world`).

The component's observable behaviour is embedded as pure Lean functions:

* `buildWeatherTiles` — the tile-URL template builder (the JS template
  literal becomes explicit string concatenation; the JS `number` argument
  is modelled as `Int`, which covers every value the claims mention).
* `MapState` — the part of the Mapbox map handle the component touches:
  the id-keyed source list, the id-keyed layer list and the fog setting.
  The SDK calls `getLayer` / `getSource` / `removeLayer` / `removeSource` /
  `addSource` / `addLayer` become functions on `MapState`.
* `addOrUpdateWeatherLayerOn` — the overlay-refresh procedure, returning
  both the updated state and the trace of map operations it performed
  (queries included), so that ordering and at-any-time invariants can be
  stated over intermediate states (`statesAlong`).
* `WidgetState` / `UIEvent` / `handleEvent` — the React state and the
  event handlers (`saveToken`, the Clear button, the controlled input,
  the variable select, the lead-time slider), with browser side effects
  (localStorage write, page reload) made explicit in `Effects`.
* `render` — which of the widget's JSX parts appear for a given state.
* `styleLoadHandler` — the `style.load` callback: a try/catch-wrapped
  fog application followed by the overlay refresh.

Floating-point literals from the source (raster opacity `0.85`,
horizon-blend `0.2`) appear only as inert configuration data; they are
stored in fixed-point form (hundredths / tenths) since no claim computes
with them.
-/

namespace ForecastViewWorld

/-- The `key` fields of the `VARIABLES` constant in the source. -/
def VARIABLES_keys : List String :=
  ["air_temperature", "wind_stream", "precipitation_shaded"]

/-- The `TIMESTEPS` constant in the source. -/
def TIMESTEPS : List Int := [0, 6, 12, 24, 36, 48, 60, 72]

/-- `WEATHER_SOURCE_ID` in the source. -/
def WEATHER_SOURCE_ID : String := "weather-tiles"

/-- `WEATHER_LAYER_ID` in the source. -/
def WEATHER_LAYER_ID : String := "weather-tiles-layer"

/-- The localStorage key used by the token gate. -/
def MAPBOX_TOKEN_KEY : String := "MAPBOX_TOKEN"

/-- `buildWeatherTiles` from the source: the template literal
``https://weather.openportguide.de/tiles/actual/${variable}/${timestep}h/...``
with the trailing z/x/y placeholders kept as literal text
(`\x7b` and `\x7d` are the literal brace characters). -/
def buildWeatherTiles (varKey : String) (timestep : Int) : String :=
  "https://weather.openportguide.de/tiles/actual/" ++ varKey ++ "/" ++
    toString timestep ++ "h/\x7bz\x7d/\x7bx\x7d/\x7by\x7d.png"

/-- The raster source object passed to `map.addSource` (type "raster",
`tiles`, `tileSize: 256`, static attribution). -/
structure RasterSource where
  tiles : List String
  tileSize : Nat
  attribution : String
deriving DecidableEq

/-- The raster layer object passed to `map.addLayer` (`source` id and the
`raster-opacity: 0.85` paint property, stored in hundredths). -/
structure RasterLayer where
  source : String
  rasterOpacityHundredths : Nat
deriving DecidableEq

/-- The fog configuration passed to `map.setFog` (colors as written;
`horizon-blend: 0.2` stored in tenths). -/
structure FogConfig where
  color : String
  highColor : String
  horizonBlendTenths : Nat
deriving DecidableEq

/-- The slice of the Mapbox map handle the component observes and mutates:
id-keyed sources and layers (insertion order kept) and the fog setting. -/
structure MapState where
  sources : List (String × RasterSource)
  layers : List (String × RasterLayer)
  fog : Option FogConfig
deriving DecidableEq

/-- SDK `map.getLayer(id)`. -/
def MapState.getLayer (m : MapState) (id : String) : Option RasterLayer :=
  (m.layers.find? fun p => p.1 == id).map Prod.snd

/-- SDK `map.getSource(id)`. -/
def MapState.getSource (m : MapState) (id : String) : Option RasterSource :=
  (m.sources.find? fun p => p.1 == id).map Prod.snd

/-- SDK `map.removeLayer(id)`. -/
def MapState.removeLayer (m : MapState) (id : String) : MapState :=
  { m with layers := m.layers.filter fun p => p.1 != id }

/-- SDK `map.removeSource(id)`. -/
def MapState.removeSource (m : MapState) (id : String) : MapState :=
  { m with sources := m.sources.filter fun p => p.1 != id }

/-- SDK `map.addSource(id, spec)`. -/
def MapState.addSource (m : MapState) (id : String) (s : RasterSource) : MapState :=
  { m with sources := m.sources ++ [(id, s)] }

/-- SDK `map.addLayer(spec)` with `spec.id = id`. -/
def MapState.addLayer (m : MapState) (id : String) (l : RasterLayer) : MapState :=
  { m with layers := m.layers ++ [(id, l)] }

/-- One observable call the component makes against the map handle. -/
inductive MapOp where
  | queryLayer (id : String)
  | querySource (id : String)
  | removeLayer (id : String)
  | removeSource (id : String)
  | addSource (id : String) (s : RasterSource)
  | addLayer (id : String) (l : RasterLayer)
deriving DecidableEq

/-- Effect of one map operation on the map state (queries change nothing). -/
def applyOp (m : MapState) : MapOp → MapState
  | MapOp.queryLayer _ => m
  | MapOp.querySource _ => m
  | MapOp.removeLayer id => m.removeLayer id
  | MapOp.removeSource id => m.removeSource id
  | MapOp.addSource id s => m.addSource id s
  | MapOp.addLayer id l => m.addLayer id l

/-- Run a trace of map operations from a state. -/
def applyOps (m : MapState) (ops : List MapOp) : MapState :=
  ops.foldl applyOp m

/-- Every state the map passes through while a trace executes, the initial
and the final state included. -/
def statesAlong (m : MapState) : List MapOp → List MapState
  | [] => [m]
  | op :: rest => m :: statesAlong (applyOp m op) rest

/-- The source object built inside `addOrUpdateWeatherLayer`. -/
def weatherSource (tiles : List String) : RasterSource :=
  { tiles := tiles, tileSize := 256,
    attribution := "Weather tiles © OpenPortGuide (demo) | Base map © Mapbox & OpenStreetMap" }

/-- The layer object built inside `addOrUpdateWeatherLayer`. -/
def weatherLayer : RasterLayer :=
  { source := WEATHER_SOURCE_ID, rasterOpacityHundredths := 85 }

/-- `addOrUpdateWeatherLayer` acting on a live map: remove the layer if it
exists, remove the source if it exists, then add the new source and the new
layer. Returns the new state together with the trace of SDK calls made. -/
def addOrUpdateWeatherLayerOn (varKey : String) (timestep : Int) (map : MapState) :
    MapState × List MapOp :=
  let tiles := [buildWeatherTiles varKey timestep]
  let r1 : MapState × List MapOp :=
    if (map.getLayer WEATHER_LAYER_ID).isSome then
      (map.removeLayer WEATHER_LAYER_ID,
        [MapOp.queryLayer WEATHER_LAYER_ID, MapOp.removeLayer WEATHER_LAYER_ID])
    else (map, [MapOp.queryLayer WEATHER_LAYER_ID])
  let r2 : MapState × List MapOp :=
    if (r1.1.getSource WEATHER_SOURCE_ID).isSome then
      (r1.1.removeSource WEATHER_SOURCE_ID,
        [MapOp.querySource WEATHER_SOURCE_ID, MapOp.removeSource WEATHER_SOURCE_ID])
    else (r1.1, [MapOp.querySource WEATHER_SOURCE_ID])
  let src := weatherSource tiles
  let m3 := r2.1.addSource WEATHER_SOURCE_ID src
  let m4 := m3.addLayer WEATHER_LAYER_ID weatherLayer
  (m4, r1.2 ++ r2.2 ++
    [MapOp.addSource WEATHER_SOURCE_ID src, MapOp.addLayer WEATHER_LAYER_ID weatherLayer])

/-- `addOrUpdateWeatherLayer` including its `mapRef.current` null guard:
with no map instance it returns immediately, performing no operation. -/
def addOrUpdateWeatherLayer (varKey : String) (timestep : Int)
    (mapRef : Option MapState) : Option MapState × List MapOp :=
  match mapRef with
  | none => (none, [])
  | some map =>
    let r := addOrUpdateWeatherLayerOn varKey timestep map
    (some r.1, r.2)

/-- Number of layer entries carrying a given id. -/
def countLayerId (m : MapState) (id : String) : Nat :=
  m.layers.countP fun p => p.1 == id

/-- Number of source entries carrying a given id. -/
def countSourceId (m : MapState) (id : String) : Nat :=
  m.sources.countP fun p => p.1 == id

/-- At most one weather source and at most one weather layer on the map. -/
def weatherInv (m : MapState) : Prop :=
  countLayerId m WEATHER_LAYER_ID ≤ 1 ∧ countSourceId m WEATHER_SOURCE_ID ≤ 1

instance (m : MapState) : Decidable (weatherInv m) := by
  unfold weatherInv; infer_instance

/-- A sequence of overlay-refresh invocations on a live map, concatenating
the operation traces. -/
def runCalls (m : MapState) : List (String × Int) → MapState × List MapOp
  | [] => (m, [])
  | c :: rest =>
    let r1 := addOrUpdateWeatherLayerOn c.1 c.2 m
    let r2 := runCalls r1.1 rest
    (r2.1, r1.2 ++ r2.2)

/-- JS truthiness of the `mapboxToken` state: `null` and the empty string
are falsy, every other string is truthy. -/
def tokenTruthy : Option String → Bool
  | none => false
  | some s => s != ""

/-- The React state held by `WeatherMap` (`mapboxToken`, `variable`,
`timestep`). `variable` is a Lean keyword, hence the field name `varKey`. -/
structure WidgetState where
  mapboxToken : Option String
  varKey : String
  timestep : Int
deriving DecidableEq

/-- Initial widget state: token read from localStorage, variable
`air_temperature`, timestep `6`. -/
def initialState (storedToken : Option String) : WidgetState :=
  { mapboxToken := storedToken, varKey := "air_temperature", timestep := 6 }

/-- Browser side effects a handler can produce: a localStorage write
(key, value) and a `window.location.reload()` call. -/
structure Effects where
  storageWrite : Option (String × String)
  reload : Bool
deriving DecidableEq

/-- No side effect. -/
def noEffects : Effects := { storageWrite := none, reload := false }

/-- `saveToken` from the source: `if (!mapboxToken) return;` then
`localStorage.setItem("MAPBOX_TOKEN", mapboxToken)` and a full reload. -/
def saveToken (st : WidgetState) : WidgetState × Effects :=
  match st.mapboxToken with
  | none => (st, noEffects)
  | some tok =>
    if tok == "" then (st, noEffects)
    else (st, { storageWrite := some (MAPBOX_TOKEN_KEY, tok), reload := true })

/-- The UI triggers wired up in the JSX: the Save button, the Clear button,
the token text input, the variable select, the lead-time slider. -/
inductive UIEvent where
  | saveClick
  | clearClick
  | tokenInput (s : String)
  | variableChange (v : String)
  | timestepChange (t : Int)
deriving DecidableEq

/-- Dispatch of each UI trigger to its handler, as written in the JSX:
Save runs `saveToken`; Clear runs `setMapboxToken("")`; the input runs
`setMapboxToken(e.target.value)`; the select and slider update their
respective state. Only state setters, no other side effect. -/
def handleEvent (st : WidgetState) : UIEvent → WidgetState × Effects
  | UIEvent.saveClick => saveToken st
  | UIEvent.clearClick => ({ st with mapboxToken := some "" }, noEffects)
  | UIEvent.tokenInput s => ({ st with mapboxToken := some s }, noEffects)
  | UIEvent.variableChange v => ({ st with varKey := v }, noEffects)
  | UIEvent.timestepChange t => ({ st with timestep := t }, noEffects)

/-- Which parts of the JSX tree are rendered for a given state: the
token-entry overlay is conditional on `!mapboxToken`; the map container div
and the controls panel are rendered unconditionally. -/
structure RenderOutput where
  tokenForm : Bool
  mapContainerDiv : Bool
  controlsPanel : Bool
deriving DecidableEq

/-- The render function of `WeatherMap`, reduced to which parts appear. -/
def render (st : WidgetState) : RenderOutput :=
  { tokenForm := !(tokenTruthy st.mapboxToken),
    mapContainerDiv := true,
    controlsPanel := true }

/-- The guard of the map-initialization effect:
`if (!mapContainer.current || !mapboxToken) return;` — the map is
constructed exactly when the container exists and the token is truthy. -/
def mapInitRuns (containerPresent : Bool) (token : Option String) : Bool :=
  containerPresent && tokenTruthy token

/-- Spec-side reading of "renders only the token input form": the form
appears and no other part of the widget tree does. -/
def rendersOnlyTokenForm (r : RenderOutput) : Prop :=
  r.tokenForm = true ∧ r.mapContainerDiv = false ∧ r.controlsPanel = false

instance (r : RenderOutput) : Decidable (rendersOnlyTokenForm r) := by
  unfold rendersOnlyTokenForm; infer_instance

/-- The fog configuration passed to `map.setFog`. -/
def weatherFog : FogConfig :=
  { color := "rgba(255,255,255,1)", highColor := "rgba(200,200,230,1)",
    horizonBlendTenths := 2 }

/-- A fallible action on the map state: `ok` yields the new state, `error`
carries the thrown message with the state untouched. -/
def setFogAction (outcome : Except String Unit) (cfg : FogConfig) (m : MapState) :
    Except String MapState :=
  match outcome with
  | Except.ok _ => Except.ok { m with fog := some cfg }
  | Except.error e => Except.error e

/-- `try { body } catch {}`: a thrown error is discarded and the state at
entry is kept. -/
def tryIgnore (body : MapState → Except String MapState) (m : MapState) : MapState :=
  match body m with
  | Except.ok m2 => m2
  | Except.error _ => m

/-- The `style.load` handler: best-effort `setFog` inside try/catch, then
`addOrUpdateWeatherLayer()`. `outcome` is whether the SDK's `setFog`
throws; the handler itself never propagates an error (its return type is
not `Except`). -/
def styleLoadHandler (outcome : Except String Unit) (varKey : String)
    (timestep : Int) (map : MapState) : MapState × List MapOp :=
  let m1 := tryIgnore (setFogAction outcome weatherFog) map
  addOrUpdateWeatherLayerOn varKey timestep m1

/-! ### Helper lemmas about id-keyed lists and the map operations -/

lemma countP_filter_ne {α : Type} (l : List (String × α)) (id : String) :
    (l.filter fun p => p.1 != id).countP (fun p => p.1 == id) = 0 := by
  rw [List.countP_eq_zero]
  intro a ha
  have h := (List.mem_filter.mp ha).2
  simpa using h

lemma find?_filter_ne {α : Type} (l : List (String × α)) (id : String) :
    (l.filter fun p => p.1 != id).find? (fun p => p.1 == id) = none := by
  rw [List.find?_eq_none]
  intro a ha
  have h := (List.mem_filter.mp ha).2
  simpa using h

lemma countP_eq_zero_of_find?_none {α : Type} (l : List (String × α)) (id : String)
    (h : l.find? (fun p => p.1 == id) = none) :
    l.countP (fun p => p.1 == id) = 0 := by
  rw [List.countP_eq_zero]
  exact List.find?_eq_none.mp h

lemma filter_ne_of_find?_none {α : Type} (l : List (String × α)) (id : String)
    (h : l.find? (fun p => p.1 == id) = none) :
    l.filter (fun p => p.1 != id) = l := by
  rw [List.filter_eq_self]
  intro a ha
  have h2 := List.find?_eq_none.mp h a ha
  simpa using h2

lemma getSource_removeLayer (m : MapState) (id id2 : String) :
    (m.removeLayer id).getSource id2 = m.getSource id2 := rfl

lemma layers_find?_none_of_getLayer_none (m : MapState) (id : String)
    (h : m.getLayer id = none) : m.layers.find? (fun p => p.1 == id) = none := by
  cases hf : m.layers.find? fun p => p.1 == id with
  | none => rfl
  | some a => simp [MapState.getLayer, hf] at h

lemma sources_find?_none_of_getSource_none (m : MapState) (id : String)
    (h : m.getSource id = none) : m.sources.find? (fun p => p.1 == id) = none := by
  cases hf : m.sources.find? fun p => p.1 == id with
  | none => rfl
  | some a => simp [MapState.getSource, hf] at h

lemma countLayerId_removeLayer (m : MapState) (id : String) :
    countLayerId (m.removeLayer id) id = 0 :=
  countP_filter_ne m.layers id

lemma countSourceId_removeSource (m : MapState) (id : String) :
    countSourceId (m.removeSource id) id = 0 :=
  countP_filter_ne m.sources id

lemma countLayerId_removeSource (m : MapState) (id id2 : String) :
    countLayerId (m.removeSource id2) id = countLayerId m id := rfl

lemma countSourceId_removeLayer (m : MapState) (id id2 : String) :
    countSourceId (m.removeLayer id2) id = countSourceId m id := rfl

lemma countLayerId_addSource (m : MapState) (id id2 : String) (s : RasterSource) :
    countLayerId (m.addSource id2 s) id = countLayerId m id := rfl

lemma countSourceId_addLayer (m : MapState) (id id2 : String) (l : RasterLayer) :
    countSourceId (m.addLayer id2 l) id = countSourceId m id := rfl

lemma countSourceId_addSource_self (m : MapState) (id : String) (s : RasterSource) :
    countSourceId (m.addSource id s) id = countSourceId m id + 1 := by
  unfold countSourceId MapState.addSource
  simp [List.countP_append, List.countP_cons]

lemma countLayerId_addLayer_self (m : MapState) (id : String) (l : RasterLayer) :
    countLayerId (m.addLayer id l) id = countLayerId m id + 1 := by
  unfold countLayerId MapState.addLayer
  simp [List.countP_append, List.countP_cons]

lemma countLayerId_of_getLayer_none (m : MapState) (id : String)
    (h : m.getLayer id = none) : countLayerId m id = 0 :=
  countP_eq_zero_of_find?_none _ _ (layers_find?_none_of_getLayer_none m id h)

lemma countSourceId_of_getSource_none (m : MapState) (id : String)
    (h : m.getSource id = none) : countSourceId m id = 0 :=
  countP_eq_zero_of_find?_none _ _ (sources_find?_none_of_getSource_none m id h)

/-- Normal form of the state produced by one overlay refresh: whatever the
starting state, every weather-id entry is gone and exactly one fresh source
and one fresh layer sit at the end of the respective lists; fog untouched. -/
lemma refresh_fst (v : String) (t : Int) (m : MapState) :
    (addOrUpdateWeatherLayerOn v t m).1 =
      { sources := (m.sources.filter fun p => p.1 != WEATHER_SOURCE_ID) ++
          [(WEATHER_SOURCE_ID, weatherSource [buildWeatherTiles v t])],
        layers := (m.layers.filter fun p => p.1 != WEATHER_LAYER_ID) ++
          [(WEATHER_LAYER_ID, weatherLayer)],
        fog := m.fog } := by
  unfold addOrUpdateWeatherLayerOn MapState.getLayer MapState.getSource
    MapState.removeLayer MapState.removeSource MapState.addSource MapState.addLayer
  cases hfL : m.layers.find? fun p => p.1 == WEATHER_LAYER_ID with
  | none =>
    cases hfS : m.sources.find? fun p => p.1 == WEATHER_SOURCE_ID with
    | none =>
      simp [hfL, hfS, filter_ne_of_find?_none _ _ hfL, filter_ne_of_find?_none _ _ hfS]
    | some a => simp [hfL, hfS, filter_ne_of_find?_none _ _ hfL]
  | some a =>
    cases hfS : m.sources.find? fun p => p.1 == WEATHER_SOURCE_ID with
    | none => simp [hfL, hfS, filter_ne_of_find?_none _ _ hfS]
    | some b => simp [hfL, hfS]

/-- Exact trace of one overlay refresh: query the layer, remove it if
present, query the source, remove it if present, then add the new source
and finally the new layer. -/
lemma refresh_snd (v : String) (t : Int) (m : MapState) :
    (addOrUpdateWeatherLayerOn v t m).2 =
      [MapOp.queryLayer WEATHER_LAYER_ID] ++
      (if (m.getLayer WEATHER_LAYER_ID).isSome then
        [MapOp.removeLayer WEATHER_LAYER_ID] else []) ++
      [MapOp.querySource WEATHER_SOURCE_ID] ++
      (if (m.getSource WEATHER_SOURCE_ID).isSome then
        [MapOp.removeSource WEATHER_SOURCE_ID] else []) ++
      [MapOp.addSource WEATHER_SOURCE_ID (weatherSource [buildWeatherTiles v t]),
       MapOp.addLayer WEATHER_LAYER_ID weatherLayer] := by
  by_cases h1 : (m.getLayer WEATHER_LAYER_ID).isSome <;>
    by_cases h2 : (m.getSource WEATHER_SOURCE_ID).isSome <;>
    simp [addOrUpdateWeatherLayerOn, h1, h2, getSource_removeLayer]

lemma applyOps_cons (m : MapState) (op : MapOp) (ops : List MapOp) :
    applyOps m (op :: ops) = applyOps (applyOp m op) ops := rfl

/-- The state returned by the refresh is the one its trace produces. -/
lemma applyOps_refresh (v : String) (t : Int) (m : MapState) :
    applyOps m (addOrUpdateWeatherLayerOn v t m).2 = (addOrUpdateWeatherLayerOn v t m).1 := by
  unfold addOrUpdateWeatherLayerOn MapState.getLayer MapState.getSource
    MapState.removeLayer MapState.removeSource MapState.addSource MapState.addLayer
  cases hfL : m.layers.find? fun p => p.1 == WEATHER_LAYER_ID <;>
    cases hfS : m.sources.find? fun p => p.1 == WEATHER_SOURCE_ID <;>
    simp [hfL, hfS, applyOps, applyOp, MapState.removeLayer, MapState.removeSource,
      MapState.addSource, MapState.addLayer]

lemma mem_statesAlong_append (ops1 ops2 : List MapOp) (m s : MapState)
    (hs : s ∈ statesAlong m (ops1 ++ ops2)) :
    s ∈ statesAlong m ops1 ∨ s ∈ statesAlong (applyOps m ops1) ops2 := by
  induction ops1 generalizing m with
  | nil =>
    right
    simpa [applyOps] using hs
  | cons op rest ih =>
    rw [List.cons_append, statesAlong] at hs
    rcases List.mem_cons.mp hs with rfl | h2
    · left
      rw [statesAlong]
      exact List.mem_cons_self _ _
    · rcases ih (applyOp m op) h2 with ha | hb
      · left
        rw [statesAlong]
        exact List.mem_cons_of_mem _ ha
      · right
        rwa [applyOps_cons]

lemma refresh_countLayer (v : String) (t : Int) (m : MapState) :
    countLayerId (addOrUpdateWeatherLayerOn v t m).1 WEATHER_LAYER_ID = 1 := by
  rw [refresh_fst]
  unfold countLayerId
  simp [List.countP_append, countP_filter_ne, List.countP_cons]

lemma refresh_countSource (v : String) (t : Int) (m : MapState) :
    countSourceId (addOrUpdateWeatherLayerOn v t m).1 WEATHER_SOURCE_ID = 1 := by
  rw [refresh_fst]
  unfold countSourceId
  simp [List.countP_append, countP_filter_ne, List.countP_cons]

lemma refresh_inv (v : String) (t : Int) (m : MapState) :
    weatherInv (addOrUpdateWeatherLayerOn v t m).1 := by
  exact ⟨le_of_eq (refresh_countLayer v t m), le_of_eq (refresh_countSource v t m)⟩

/-- Every intermediate state of one overlay refresh keeps the at-most-one
invariant, provided it held at entry. -/
lemma refresh_states_inv (v : String) (t : Int) (m : MapState) (h : weatherInv m) :
    ∀ s ∈ statesAlong m (addOrUpdateWeatherLayerOn v t m).2, weatherInv s := by
  obtain ⟨hL, hS⟩ := h
  intro s hs
  rw [refresh_snd] at hs
  by_cases h1 : (m.getLayer WEATHER_LAYER_ID).isSome
  · by_cases h2 : (m.getSource WEATHER_SOURCE_ID).isSome
    · simp [h1, h2, statesAlong, applyOp] at hs
      rcases hs with rfl | rfl | rfl | rfl | rfl
      · exact ⟨hL, hS⟩
      · exact ⟨by simp [countLayerId_removeLayer],
          by simpa [countSourceId_removeLayer] using hS⟩
      · exact ⟨by simp [countLayerId_removeSource, countLayerId_removeLayer],
          by simp [countSourceId_removeSource]⟩
      · exact ⟨by simp [countLayerId_addSource, countLayerId_removeSource,
            countLayerId_removeLayer],
          by simp [countSourceId_addSource_self, countSourceId_removeSource]⟩
      · exact ⟨by simp [countLayerId_addLayer_self, countLayerId_addSource,
            countLayerId_removeSource, countLayerId_removeLayer],
          by simp [countSourceId_addLayer, countSourceId_addSource_self,
            countSourceId_removeSource]⟩
    · have hS0 : countSourceId m WEATHER_SOURCE_ID = 0 :=
        countSourceId_of_getSource_none m _ (Option.not_isSome_iff_eq_none.mp h2)
      simp [h1, h2, statesAlong, applyOp] at hs
      rcases hs with rfl | rfl | rfl | rfl
      · exact ⟨hL, hS⟩
      · exact ⟨by simp [countLayerId_removeLayer],
          by simpa [countSourceId_removeLayer] using hS⟩
      · exact ⟨by simp [countLayerId_addSource, countLayerId_removeLayer],
          by simp [countSourceId_addSource_self, countSourceId_removeLayer, hS0]⟩
      · exact ⟨by simp [countLayerId_addLayer_self, countLayerId_addSource,
            countLayerId_removeLayer],
          by simp [countSourceId_addLayer, countSourceId_addSource_self,
            countSourceId_removeLayer, hS0]⟩
  · have hL0 : countLayerId m WEATHER_LAYER_ID = 0 :=
      countLayerId_of_getLayer_none m _ (Option.not_isSome_iff_eq_none.mp h1)
    by_cases h2 : (m.getSource WEATHER_SOURCE_ID).isSome
    · simp [h1, h2, statesAlong, applyOp] at hs
      rcases hs with rfl | rfl | rfl | rfl
      · exact ⟨hL, hS⟩
      · exact ⟨by simpa [countLayerId_removeSource] using hL,
          by simp [countSourceId_removeSource]⟩
      · exact ⟨by simp [countLayerId_addSource, countLayerId_removeSource, hL0],
          by simp [countSourceId_addSource_self, countSourceId_removeSource]⟩
      · exact ⟨by simp [countLayerId_addLayer_self, countLayerId_addSource,
            countLayerId_removeSource, hL0],
          by simp [countSourceId_addLayer, countSourceId_addSource_self,
            countSourceId_removeSource]⟩
    · have hS0 : countSourceId m WEATHER_SOURCE_ID = 0 :=
        countSourceId_of_getSource_none m _ (Option.not_isSome_iff_eq_none.mp h2)
      simp [h1, h2, statesAlong, applyOp] at hs
      rcases hs with rfl | rfl | rfl
      · exact ⟨hL, hS⟩
      · exact ⟨by simp [countLayerId_addSource, hL0],
          by simp [countSourceId_addSource_self, hS0]⟩
      · exact ⟨by simp [countLayerId_addLayer_self, countLayerId_addSource, hL0],
          by simp [countSourceId_addLayer, countSourceId_addSource_self, hS0]⟩

lemma runCalls_cons (m : MapState) (c : String × Int) (rest : List (String × Int)) :
    runCalls m (c :: rest) =
      ((runCalls (addOrUpdateWeatherLayerOn c.1 c.2 m).1 rest).1,
       (addOrUpdateWeatherLayerOn c.1 c.2 m).2 ++
         (runCalls (addOrUpdateWeatherLayerOn c.1 c.2 m).1 rest).2) := rfl

/-- Across any sequence of overlay refreshes starting from a state with the
at-most-one invariant, every state the map passes through keeps it. -/
lemma runCalls_inv (calls : List (String × Int)) (m : MapState) (h : weatherInv m) :
    ∀ s ∈ statesAlong m (runCalls m calls).2, weatherInv s := by
  induction calls generalizing m with
  | nil =>
    intro s hs
    simp [runCalls, statesAlong] at hs
    rcases hs with rfl
    exact h
  | cons c rest ih =>
    intro s hs
    rw [runCalls_cons] at hs
    rcases mem_statesAlong_append _ _ _ _ hs with h1 | h2
    · exact refresh_states_inv c.1 c.2 m h s h1
    · rw [applyOps_refresh] at h2
      exact ih _ (refresh_inv c.1 c.2 m) s h2

/-! ### Claim theorems -/

/-- C1: for every variable key in the closed set and every lead-time in
`TIMESTEPS`, `buildWeatherTiles` returns exactly the documented URL: the
variable and the lead-time substituted, the literal `h` suffix appended to
the lead-time, and the z/x/y placeholders kept as literal text. The full
3 × 8 table of outputs is enumerated. -/
theorem c1_tile_url_enumeration :
    VARIABLES_keys.map (fun v => TIMESTEPS.map fun t => buildWeatherTiles v t) =
      [["https://weather.openportguide.de/tiles/actual/air_temperature/0h/\x7bz\x7d/\x7bx\x7d/\x7by\x7d.png",
        "https://weather.openportguide.de/tiles/actual/air_temperature/6h/\x7bz\x7d/\x7bx\x7d/\x7by\x7d.png",
        "https://weather.openportguide.de/tiles/actual/air_temperature/12h/\x7bz\x7d/\x7bx\x7d/\x7by\x7d.png",
        "https://weather.openportguide.de/tiles/actual/air_temperature/24h/\x7bz\x7d/\x7bx\x7d/\x7by\x7d.png",
        "https://weather.openportguide.de/tiles/actual/air_temperature/36h/\x7bz\x7d/\x7bx\x7d/\x7by\x7d.png",
        "https://weather.openportguide.de/tiles/actual/air_temperature/48h/\x7bz\x7d/\x7bx\x7d/\x7by\x7d.png",
        "https://weather.openportguide.de/tiles/actual/air_temperature/60h/\x7bz\x7d/\x7bx\x7d/\x7by\x7d.png",
        "https://weather.openportguide.de/tiles/actual/air_temperature/72h/\x7bz\x7d/\x7bx\x7d/\x7by\x7d.png"],
       ["https://weather.openportguide.de/tiles/actual/wind_stream/0h/\x7bz\x7d/\x7bx\x7d/\x7by\x7d.png",
        "https://weather.openportguide.de/tiles/actual/wind_stream/6h/\x7bz\x7d/\x7bx\x7d/\x7by\x7d.png",
        "https://weather.openportguide.de/tiles/actual/wind_stream/12h/\x7bz\x7d/\x7bx\x7d/\x7by\x7d.png",
        "https://weather.openportguide.de/tiles/actual/wind_stream/24h/\x7bz\x7d/\x7bx\x7d/\x7by\x7d.png",
        "https://weather.openportguide.de/tiles/actual/wind_stream/36h/\x7bz\x7d/\x7bx\x7d/\x7by\x7d.png",
        "https://weather.openportguide.de/tiles/actual/wind_stream/48h/\x7bz\x7d/\x7bx\x7d/\x7by\x7d.png",
        "https://weather.openportguide.de/tiles/actual/wind_stream/60h/\x7bz\x7d/\x7bx\x7d/\x7by\x7d.png",
        "https://weather.openportguide.de/tiles/actual/wind_stream/72h/\x7bz\x7d/\x7bx\x7d/\x7by\x7d.png"],
       ["https://weather.openportguide.de/tiles/actual/precipitation_shaded/0h/\x7bz\x7d/\x7bx\x7d/\x7by\x7d.png",
        "https://weather.openportguide.de/tiles/actual/precipitation_shaded/6h/\x7bz\x7d/\x7bx\x7d/\x7by\x7d.png",
        "https://weather.openportguide.de/tiles/actual/precipitation_shaded/12h/\x7bz\x7d/\x7bx\x7d/\x7by\x7d.png",
        "https://weather.openportguide.de/tiles/actual/precipitation_shaded/24h/\x7bz\x7d/\x7bx\x7d/\x7by\x7d.png",
        "https://weather.openportguide.de/tiles/actual/precipitation_shaded/36h/\x7bz\x7d/\x7bx\x7d/\x7by\x7d.png",
        "https://weather.openportguide.de/tiles/actual/precipitation_shaded/48h/\x7bz\x7d/\x7bx\x7d/\x7by\x7d.png",
        "https://weather.openportguide.de/tiles/actual/precipitation_shaded/60h/\x7bz\x7d/\x7bx\x7d/\x7by\x7d.png",
        "https://weather.openportguide.de/tiles/actual/precipitation_shaded/72h/\x7bz\x7d/\x7bx\x7d/\x7by\x7d.png"]] := by
  decide

/-- C9: `buildWeatherTiles` is a total pure function of its integer
lead-time with no range validation or clamping: every integer, the
out-of-range 7 and -1 included, is embedded verbatim followed by `h`. -/
theorem c9_builder_total_unvalidated :
    (∀ (v : String) (t : Int),
        buildWeatherTiles v t =
          "https://weather.openportguide.de/tiles/actual/" ++ v ++ "/" ++
            toString t ++ "h/\x7bz\x7d/\x7bx\x7d/\x7by\x7d.png")
    ∧ buildWeatherTiles VARIABLES_keys.headI 7 =
        "https://weather.openportguide.de/tiles/actual/air_temperature/7h/\x7bz\x7d/\x7bx\x7d/\x7by\x7d.png"
    ∧ buildWeatherTiles VARIABLES_keys.headI (-1) =
        "https://weather.openportguide.de/tiles/actual/air_temperature/-1h/\x7bz\x7d/\x7bx\x7d/\x7by\x7d.png" :=
  ⟨fun _ _ => rfl, by decide, by decide⟩

/-- C4: with no live map (`mapRef.current === null`) the overlay refresh
returns immediately: the state stays absent and the operation trace is
empty — nothing is queried, removed or added. -/
theorem c4_refresh_noop_without_map (v : String) (t : Int) :
    addOrUpdateWeatherLayer v t none = (none, []) := rfl

/-- C2: starting from a live map with at most one weather source and one
weather layer, every state reached during any sequence of overlay
refreshes keeps that bound; and each refresh's trace removes an existing
layer first, then an existing source, and only afterwards adds the new
source followed by the new layer. -/
theorem c2_overlay_single_instance (m : MapState) (calls : List (String × Int))
    (v : String) (t : Int) (h : weatherInv m) :
    (∀ s ∈ statesAlong m (runCalls m calls).2, weatherInv s) ∧
    (addOrUpdateWeatherLayerOn v t m).2 =
      [MapOp.queryLayer WEATHER_LAYER_ID] ++
      (if (m.getLayer WEATHER_LAYER_ID).isSome then
        [MapOp.removeLayer WEATHER_LAYER_ID] else []) ++
      [MapOp.querySource WEATHER_SOURCE_ID] ++
      (if (m.getSource WEATHER_SOURCE_ID).isSome then
        [MapOp.removeSource WEATHER_SOURCE_ID] else []) ++
      [MapOp.addSource WEATHER_SOURCE_ID (weatherSource [buildWeatherTiles v t]),
       MapOp.addLayer WEATHER_LAYER_ID weatherLayer] :=
  ⟨runCalls_inv calls m h, refresh_snd v t m⟩

/-- A fresh live map: no sources, no layers, no fog. -/
def emptyMap : MapState := { sources := [], layers := [], fog := none }

/-- A concrete refresh sequence used to witness the hypotheses of the C2
theorem. -/
def exampleCalls : List (String × Int) := [("wind_stream", 12), ("wind_stream", 24)]

theorem c2_overlay_single_instance_witness :
    weatherInv emptyMap ∧
    (∀ s ∈ statesAlong emptyMap (runCalls emptyMap exampleCalls).2, weatherInv s) :=
  ⟨by decide,
    (c2_overlay_single_instance emptyMap exampleCalls (exampleCalls.headI).1
      (exampleCalls.headI).2 (by decide)).1⟩

/-- C3: the overlay refresh is idempotent: running it twice with the same
pair gives the same final state as once; after one run exactly one weather
source and one weather layer exist, the layer references that source, and
the source's single tile URL is built from the current pair. -/
theorem c3_refresh_idempotent (m : MapState) (v : String) (t : Int) :
    (addOrUpdateWeatherLayerOn v t (addOrUpdateWeatherLayerOn v t m).1).1 =
      (addOrUpdateWeatherLayerOn v t m).1 ∧
    countLayerId (addOrUpdateWeatherLayerOn v t m).1 WEATHER_LAYER_ID = 1 ∧
    countSourceId (addOrUpdateWeatherLayerOn v t m).1 WEATHER_SOURCE_ID = 1 ∧
    (addOrUpdateWeatherLayerOn v t m).1.getLayer WEATHER_LAYER_ID = some weatherLayer ∧
    weatherLayer.source = WEATHER_SOURCE_ID ∧
    ((addOrUpdateWeatherLayerOn v t m).1.getSource WEATHER_SOURCE_ID).map
      RasterSource.tiles = some [buildWeatherTiles v t] := by
  refine ⟨?_, refresh_countLayer v t m, refresh_countSource v t m, ?_, rfl, ?_⟩
  · rw [refresh_fst v t m, refresh_fst]
    simp [List.filter_append, List.filter_filter]
  · rw [refresh_fst]
    unfold MapState.getLayer
    simp [List.find?_append, find?_filter_ne]
  · have hgs : (addOrUpdateWeatherLayerOn v t m).1.getSource WEATHER_SOURCE_ID =
        some (weatherSource [buildWeatherTiles v t]) := by
      rw [refresh_fst]
      unfold MapState.getSource
      rw [List.find?_append, find?_filter_ne]
      rfl
    rw [hgs]
    rfl

/-- C5 as stated is false at the concrete input "no stored token": the
widget then renders the controls panel and the map container div in
addition to the token form, so it does not render *only* the form. -/
theorem c5_counterexample :
    tokenTruthy (initialState none).mapboxToken = false ∧
    ¬ rendersOnlyTokenForm (render (initialState none)) := by
  constructor
  · rfl
  · intro h
    have hc := h.2.2
    simp [render, initialState] at hc

/-- C5 (amended): whenever the stored token is absent or empty, the widget
renders the token input form and performs no map initialization; the map
container div and the controls panel are still rendered alongside it. -/
theorem c5_amended_token_gate (st : WidgetState)
    (h : tokenTruthy st.mapboxToken = false) :
    (render st).tokenForm = true ∧
    (∀ c : Bool, mapInitRuns c st.mapboxToken = false) ∧
    (render st).mapContainerDiv = true ∧
    (render st).controlsPanel = true := by
  refine ⟨by simp [render, h], fun c => by simp [mapInitRuns, h], rfl, rfl⟩

theorem c5_amended_token_gate_witness :
    tokenTruthy (initialState none).mapboxToken = false ∧
    (render (initialState none)).tokenForm = true :=
  ⟨rfl, (c5_amended_token_gate (initialState none) rfl).1⟩

/-- C6: Save with a non-empty in-memory token writes exactly that token to
storage under the fixed key and triggers a reload; no UI trigger other
than Save ever produces a storage write. -/
theorem c6_save_writes_token (st : WidgetState) (tok : String)
    (h1 : st.mapboxToken = some tok) (h2 : tok ≠ "") :
    (handleEvent st UIEvent.saveClick).2 =
      { storageWrite := some (MAPBOX_TOKEN_KEY, tok), reload := true } ∧
    (∀ (st2 : WidgetState) (e : UIEvent),
        (handleEvent st2 e).2.storageWrite.isSome → e = UIEvent.saveClick) := by
  constructor
  · simp [handleEvent, saveToken, h1, h2]
  · intro st2 e he
    cases e with
    | saveClick => rfl
    | clearClick => simp [handleEvent, noEffects] at he
    | tokenInput s => simp [handleEvent, noEffects] at he
    | variableChange v2 => simp [handleEvent, noEffects] at he
    | timestepChange t2 => simp [handleEvent, noEffects] at he

/-- A widget state holding a non-empty in-memory token. -/
def tokenEnteredState : WidgetState :=
  { mapboxToken := some "pk.example", varKey := "air_temperature", timestep := 6 }

theorem c6_save_writes_token_witness :
    tokenEnteredState.mapboxToken = some "pk.example" ∧
    (handleEvent tokenEnteredState UIEvent.saveClick).2 =
      { storageWrite := some (MAPBOX_TOKEN_KEY, "pk.example"), reload := true } :=
  ⟨rfl, (c6_save_writes_token tokenEnteredState tokenEnteredState.mapboxToken.iget
    rfl (by decide)).1⟩

/-- C7: Clear only sets the in-memory token to the empty string, which
re-renders the token form; variable and lead-time state are untouched, no
storage write happens and no reload is triggered, so the persisted value
stays as it was. -/
theorem c7_clear_frame (st : WidgetState) :
    (handleEvent st UIEvent.clearClick).1.mapboxToken = some "" ∧
    (handleEvent st UIEvent.clearClick).1.varKey = st.varKey ∧
    (handleEvent st UIEvent.clearClick).1.timestep = st.timestep ∧
    (handleEvent st UIEvent.clearClick).2.storageWrite = none ∧
    (handleEvent st UIEvent.clearClick).2.reload = false ∧
    (render (handleEvent st UIEvent.clearClick).1).tokenForm = true := by
  refine ⟨rfl, rfl, rfl, rfl, rfl, ?_⟩
  simp [render, handleEvent, tokenTruthy]

/-- C8: when the fog application throws, the error is swallowed and the
overlay refresh still runs: the handler's sources, layers and trace agree
with the success case, the new layer is added, and the only difference is
that the fog setting keeps its previous value instead of the fog config. -/
theorem c8_fog_failure_isolated (e : String) (v : String) (t : Int) (m : MapState) :
    (styleLoadHandler (Except.error e) v t m).1.sources =
      (styleLoadHandler (Except.ok ()) v t m).1.sources ∧
    (styleLoadHandler (Except.error e) v t m).1.layers =
      (styleLoadHandler (Except.ok ()) v t m).1.layers ∧
    (styleLoadHandler (Except.error e) v t m).2 =
      (styleLoadHandler (Except.ok ()) v t m).2 ∧
    (styleLoadHandler (Except.error e) v t m).1.fog = m.fog ∧
    (styleLoadHandler (Except.ok ()) v t m).1.fog = some weatherFog ∧
    MapOp.addLayer WEATHER_LAYER_ID weatherLayer ∈
      (styleLoadHandler (Except.error e) v t m).2 := by
  have herr : styleLoadHandler (Except.error e) v t m =
      addOrUpdateWeatherLayerOn v t m := rfl
  have hok : styleLoadHandler (Except.ok ()) v t m =
      addOrUpdateWeatherLayerOn v t { m with fog := some weatherFog } := rfl
  rw [herr, hok]
  refine ⟨?_, ?_, ?_, ?_, ?_, ?_⟩
  · rw [refresh_fst, refresh_fst]
  · rw [refresh_fst, refresh_fst]
  · rw [refresh_snd, refresh_snd]
    rfl
  · rw [refresh_fst]
  · rw [refresh_fst]
  · rw [refresh_snd]
    simp

/-- C10: Save while the in-memory token is absent or empty is a complete
no-op: the state is unchanged, nothing is written to storage and no reload
is triggered. -/
theorem c10_save_empty_noop (st : WidgetState)
    (h : st.mapboxToken = none ∨ st.mapboxToken = some "") :
    handleEvent st UIEvent.saveClick = (st, noEffects) := by
  rcases h with h | h <;> simp [handleEvent, saveToken, h]

theorem c10_save_empty_noop_witness :
    ((initialState none).mapboxToken = none ∨
      (initialState none).mapboxToken = some "") ∧
    handleEvent (initialState none) UIEvent.saveClick = (initialState none, noEffects) :=
  ⟨Or.inl rfl, c10_save_empty_noop (initialState none) (Or.inl rfl)⟩

end ForecastViewWorld
